import Mathlib

/-!
Shallow embedding of src/src/services/NavigatorService.js.

The navigator's mutable module state (navigation list elements, content
containers, current index, button states, and the browser location hash it
reads and writes) is collected in a `NavState` record.  DOM elements are
modelled by the attributes and CSS classes the service reads or writes:
a navigation marker by its disabled / active / visited classes and the
aria-selected flag of its tab descendant, a content panel by its
data-plenty-checkout-id attribute and its visibility.

Interceptor callbacks are arbitrary JavaScript functions; the service only
inspects whether their return value is strictly equal to false
(interceptor(params) === false), so a callback is modelled as a function
from the target-container object to a two-valued result: exactFalse for
the literal false, allow for every other JavaScript value (true,
undefined, null, objects, ...).  The registered interceptor lists are
passed explicitly instead of living in module scope.  Because jQuery.each
stops when the callback returns false, the number of callbacks actually
invoked is observable; resolveInterceptors therefore also returns that
count alongside the boolean the source returns.

Style-only effects (span paddings and button widths written by
fillNavigation) are not part of NavState; fillNavigation's arithmetic is
modelled separately on the measured widths it reads from the layout.
-/

namespace PlentyNav

/-- A navigation list element: the CSS classes disabled / active / visited
toggled by the service, and the aria-selected attribute of its tab
descendant. -/
structure Marker where
  disabled : Bool
  active : Bool
  visited : Bool
  ariaSelected : Bool
deriving DecidableEq, Repr

/-- A content container: its data-plenty-checkout-id attribute (none when
the attribute is missing, i.e. jQuery attr returns undefined) and whether
it is shown. -/
structure Panel where
  id : Option String
  visible : Bool
deriving DecidableEq, Repr

/-- The navigator's persisted mutable state: the captured marker and panel
lists, the current index (-1 while uninitialized), the disabled attribute
of the prev/next buttons, and window.location.hash. -/
@[ext]
structure NavState where
  navigation : List Marker
  container : List Panel
  current : Int
  buttonPrevDisabled : Bool
  buttonNextDisabled : Bool
  hash : String
deriving DecidableEq, Repr

/-- Classification of a JavaScript interceptor return value: the service
only distinguishes the literal false (strict equality) from everything
else. -/
inductive JSRet
  | exactFalse
  | allow
deriving DecidableEq, Repr

/-- The target-container object built at the top of goTo and handed to
interceptors: an index and the id attribute of the panel at that index
(undefined, i.e. none, when out of range or the attribute is missing). -/
structure TargetContainer where
  index : Int
  id : Option String
deriving DecidableEq, Repr

/-- An interceptor callback, seen through the service's eyes. -/
abbrev Interceptor := TargetContainer → JSRet

/-- The registered interceptor lists (module variable interceptors in the
source), in registration order. -/
structure Interceptors where
  beforeChange : List Interceptor
  afterChange : List Interceptor

/-- jQuery attr data-plenty-checkout-id on container[index]: undefined
(none) when the index is out of range or the attribute is absent.  A
negative index also yields undefined in JavaScript. -/
def attrId (panels : List Panel) (index : Int) : Option String :=
  if 0 ≤ index then (panels[index.toNat]?).bind Panel.id else none

/-- resolveInterceptors: call the callbacks in order with params; jQuery
each stops as soon as a callback body returns false, which happens exactly
when interceptor(params) === false, and then continueTabChange is false.
Returns the boolean of the source together with the number of callbacks
invoked. -/
def resolveInterceptors : List Interceptor → TargetContainer → Bool × Nat
  | [], _ => (true, 0)
  | f :: rest, params =>
    match f params with
    | .exactFalse => (false, 1)
    | .allow =>
      let r := resolveInterceptors rest params
      (r.1, r.2 + 1)

/-- One pass of the navigation-refresh loop body in goTo for the element
at position i: removeClass disabled active, reset aria-selected, then add
visited / active visited / disabled according to the position relative to
current.  The visited class is never removed. -/
def renderMarker (current : Int) (i : Nat) (m : Marker) : Marker :=
  let m1 : Marker := { m with disabled := false, active := false, ariaSelected := false }
  if (i : Int) < current then
    { m1 with visited := true }
  else if (i : Int) = current then
    { m1 with active := true, visited := true, ariaSelected := true }
  else if (i : Int) > current ∧ m1.visited = false then
    { m1 with disabled := true }
  else
    m1

/-- The navigation-refresh loop of goTo, carrying the element index. -/
def renderNavAux (current : Int) (i : Nat) : List Marker → List Marker
  | [] => []
  | m :: rest => renderMarker current i m :: renderNavAux current (i + 1) rest

/-- Hide all content containers. -/
def hidePanels (panels : List Panel) : List Panel :=
  panels.map fun p => { p with visible := false }

/-- Show the container at the given index (a no-op on an out-of-range
index, as jQuery show on an empty set).  Carries the element index. -/
def showAux (index : Int) (i : Nat) : List Panel → List Panel
  | [] => []
  | p :: rest =>
    (if (i : Int) = index then { p with visible := true } else p) :: showAux index (i + 1) rest

/-- Assignment to window.location.hash: reading the hash back yields the
value prefixed with a number sign, except that the empty string stays
empty. -/
def setHashValue (v : String) : String :=
  if v = "" then "" else if v.startsWith "#" then v else "#" ++ v

/-- JavaScript string coercion of a possibly-undefined attribute value, as
performed when it is assigned to window.location.hash. -/
def jsUndefStr : Option String → String
  | some s => s
  | none => "undefined"

/-- The unconditional tail of goTo, after the interceptor gate: set
current, hide all containers, refresh the navigation classes, update the
two buttons, show the current container, and update the location hash.
The fillNavigation call in between only writes CSS paddings and widths,
which are outside NavState. -/
def applyGoTo (s : NavState) (index : Int) : NavState :=
  let panels1 := hidePanels s.container
  let nav1 := renderNavAux index 0 s.navigation
  let panels2 := showAux index 0 panels1
  { navigation := nav1
    container := panels2
    current := index
    buttonPrevDisabled := decide (index ≤ 0)
    buttonNextDisabled := decide (index + 1 = (s.navigation.length : Int))
    hash :=
      if index > 0 then setHashValue (jsUndefStr (attrId panels2 index))
      else if s.hash.length > 0 then "" else s.hash }

/-- The outcome of a goTo call: the resulting navigator state, whether the
transition was aborted by a before interceptor, and how many before/after
interceptor callbacks were invoked. -/
structure GoToResult where
  state : NavState
  aborted : Bool
  beforeInvoked : Nat
  afterInvoked : Nat
deriving DecidableEq, Repr

/-- goTo(index, ignoreInterceptors): build the target container, and when
the content changes and interceptors are not ignored run the beforeChange
interceptors, returning early if one of them returns exactly false;
otherwise perform the state update and, when the content changed, run the
afterChange interceptors (through the same resolveInterceptors, so their
result is ignored but a false return stops the remaining ones). -/
def goTo (s : NavState) (I : Interceptors) (index : Int) (ignoreInterceptors : Bool) :
    GoToResult :=
  let targetContainer : TargetContainer := { index := index, id := attrId s.container index }
  let contentChanged : Bool := s.current != index
  if contentChanged && !ignoreInterceptors then
    let rb := resolveInterceptors I.beforeChange targetContainer
    if rb.1 then
      let s1 := applyGoTo s index
      let ra := if contentChanged then resolveInterceptors I.afterChange targetContainer
                else (true, 0)
      { state := s1, aborted := false, beforeInvoked := rb.2, afterInvoked := ra.2 }
    else
      { state := s, aborted := true, beforeInvoked := rb.2, afterInvoked := 0 }
  else
    let s1 := applyGoTo s index
    let ra := if contentChanged then resolveInterceptors I.afterChange targetContainer
              else (true, 0)
    { state := s1, aborted := false, beforeInvoked := 0, afterInvoked := ra.2 }

/-- getCurrentContainer: the id and index of the current container, or
null while uninitialized. -/
def getCurrentContainer (s : NavState) : Option TargetContainer :=
  if s.current ≥ 0 then some { index := s.current, id := attrId s.container s.current }
  else none

/-- continueChange: shorthand for goTo(targetContainer.index, true). -/
def continueChange (s : NavState) (I : Interceptors) (targetContainer : TargetContainer) :
    GoToResult :=
  goTo s I targetContainer.index true

/-- next: goTo(current + 1) when current < navigation.length - 1,
otherwise nothing happens. -/
def next (s : NavState) (I : Interceptors) : GoToResult :=
  if s.current < (s.navigation.length : Int) - 1 then goTo s I (s.current + 1) false
  else { state := s, aborted := false, beforeInvoked := 0, afterInvoked := 0 }

/-- previous: goTo(current - 1) when current > 0, otherwise nothing
happens. -/
def previous (s : NavState) (I : Interceptors) : GoToResult :=
  if s.current > 0 then goTo s I (s.current - 1) false
  else { state := s, aborted := false, beforeInvoked := 0, afterInvoked := 0 }

/-- JavaScript containerID.replace with a one-character number-sign
pattern: only the first occurrence is replaced (here: removed). -/
def removeFirstHashAux : List Char → List Char
  | [] => []
  | c :: rest => if c = '#' then rest else c :: removeFirstHashAux rest

/-- String.replace of the first number sign by the empty string. -/
def jsReplaceHash (s : String) : String :=
  String.mk (removeFirstHashAux s.data)

/-- The search loop of goToID over the captured container list: for every
element whose id attribute equals the stripped id, goTo(i) is called; the
true returned inside the callback does not stop the loop (jQuery each
only stops on false) and does not escape the enclosing function. -/
def goToIDScan (I : Interceptors) (targetID : String) :
    Nat → NavState → List (Option String) → NavState
  | _, s, [] => s
  | i, s, pid :: rest =>
    goToIDScan I targetID (i + 1)
      (if pid = some targetID then (goTo s I (i : Int) false).state else s) rest

/-- The return value and resulting state of a goToID call. -/
structure GoToIDResult where
  ret : Bool
  state : NavState
deriving DecidableEq, Repr

/-- goToID(containerID): the literal strings next and prev delegate and
return true; otherwise the first number sign is stripped, the containers
are scanned, goTo is called on every match, and the function falls
through to return false. -/
def goToID (s : NavState) (I : Interceptors) (containerID : String) : GoToIDResult :=
  if containerID = "next" then { ret := true, state := (next s I).state }
  else if containerID = "prev" then { ret := true, state := (previous s I).state }
  else
    let stripped := jsReplaceHash containerID
    { ret := false
      state := goToIDScan I stripped 0 s (s.container.map Panel.id) }

/-- The widths fillNavigation measures from the rendered layout: the
outer widths of the two buttons (with and without margins), the outer
width of the navigation list's grandparent, the navigation list parent's
horizontal margins, and the content widths of the marker span children. -/
structure LayoutEnv where
  buttonPrevOuterWidth : Int
  buttonNextOuterWidth : Int
  buttonPrevOuterWidthTrue : Int
  buttonNextOuterWidthTrue : Int
  parentParentOuterWidth : Int
  parentMarginLeft : Int
  parentMarginRight : Int
  spanWidths : List Int
deriving Repr

/-- The common button width set by fillNavigation: the larger button's
outer width including margins, plus one. -/
def fillNavButtonWidth (env : LayoutEnv) : Int :=
  if env.buttonPrevOuterWidth < env.buttonNextOuterWidth then env.buttonNextOuterWidthTrue + 1
  else env.buttonPrevOuterWidthTrue + 1

/-- The width fillNavigation distributes: the grandparent's outer width
minus twice the button width, minus the parent's horizontal margins,
minus each marker span's content width. -/
def fillNavRemainingWidth (env : LayoutEnv) : Int :=
  env.parentParentOuterWidth - 2 * fillNavButtonWidth env
    - (env.parentMarginLeft + env.parentMarginRight) - env.spanWidths.sum

/-- parseInt(width / (length * 2)): JavaScript division followed by
parseInt truncates toward zero, which is Int.tdiv on integer inputs. -/
def fillNavPadding (n : Nat) (width : Int) : Int :=
  Int.tdiv width (2 * (n : Int))

/-- diff = width - (length * padding * 2). -/
def fillNavDiff (n : Nat) (width : Int) : Int :=
  width - (n : Int) * fillNavPadding n width * 2

/-- The per-marker padding loop of fillNavigation: every marker starts
from the base padding on both sides, and while diff is positive one extra
pixel goes to the left padding and then one to the right padding before
moving to the next marker. -/
def fillLoop (padding : Int) : Int → Nat → List (Int × Int)
  | _, 0 => []
  | diff, n + 1 =>
    let pl := if diff > 0 then padding + 1 else padding
    let d1 := if diff > 0 then diff - 1 else diff
    let pr := if d1 > 0 then padding + 1 else padding
    let d2 := if d1 > 0 then d1 - 1 else d1
    (pl, pr) :: fillLoop padding d2 n

/-- The left/right paddings fillNavigation assigns to the n marker spans
when the computed remaining width is the given value. -/
def fillNavigationPaddings (n : Nat) (width : Int) : List (Int × Int) :=
  fillLoop (fillNavPadding n width) (fillNavDiff n width) n

/-- fillNavigation: returns early when no navigation elements were
captured (the none case, in which no style is written at all); otherwise
computes the paddings for the measured widths.  Only CSS styles are
written, so NavState is untouched either way. -/
def fillNavigation (n : Nat) (env : LayoutEnv) : Option (List (Int × Int)) :=
  if n = 0 then none
  else some (fillNavigationPaddings n (fillNavRemainingWidth env))

/-- The document structure init reads: the marker list under the
navigation node, the panel list under the container node, the disabled
attributes the two buttons happen to carry, the current location hash,
and the gototab query parameter as extracted by the urlParam helper (none
when the regular expression does not match). -/
structure Doc where
  markers : List Marker
  panels : List Panel
  buttonPrevDisabled : Bool
  buttonNextDisabled : Bool
  hash : String
  gototab : Option String

/-- Truthiness of the urlParam result in the guard of init: null is
falsy, and an empty capture becomes the number 0 via the or-default,
which is falsy too; any non-empty capture string is truthy. -/
def jsTruthy : Option String → Bool
  | none => false
  | some p => p ≠ ""

/-- The unconditional element assignments at the top of init: the module
variables are rebound to the freshly selected elements whether or not the
activation guard passes. -/
def initAssign (s : NavState) (doc : Doc) : NavState :=
  { s with
    navigation := doc.markers
    container := doc.panels
    buttonPrevDisabled := doc.buttonPrevDisabled
    buttonNextDisabled := doc.buttonNextDisabled
    hash := doc.hash }

/-- init: select the elements, and only when the marker count equals the
panel count and both are positive: hide the containers, mark every marker
disabled, disable both buttons, then resolve the initial tab.  When the
hash is empty and a truthy gototab parameter names an existing panel the
hash is set to it (the browser later fires an asynchronous hashchange,
which is an event outside this synchronous model); otherwise
goToID(hash) runs, and since its return value is always false here the
navigator re-runs goTo(current) when that scan left current nonnegative
and goTo(0) otherwise.  Click and resize listeners only wire the public
operations to events and the final fillNavigation writes only styles, so
neither appears in NavState. -/
def init (s : NavState) (I : Interceptors) (doc : Doc) : NavState :=
  let s1 := initAssign s doc
  if s1.navigation.length = s1.container.length ∧ s1.container.length > 0 then
    let s2 : NavState :=
      { s1 with
        container := hidePanels s1.container
        navigation := s1.navigation.map fun m => { m with disabled := true }
        buttonPrevDisabled := true
        buttonNextDisabled := true }
    if s2.hash.length = 0 ∧ jsTruthy doc.gototab ∧
        (s2.container.map Panel.id).contains (some (doc.gototab.getD "")) then
      { s2 with hash := setHashValue (doc.gototab.getD "") }
    else
      let r := goToID s2 I s2.hash
      if r.ret = false ∧ r.state.current ≥ 0 then (goTo r.state I r.state.current false).state
      else (goTo r.state I 0 false).state
  else s1

/-! Concrete example data used by the witnesses and counterexamples. -/

/-- A fresh navigation marker with no classes set. -/
def exMarker : Marker := ⟨false, false, false, false⟩

/-- Three example content panels with ids a, b, c. -/
def exPanels : List Panel := [⟨some "a", false⟩, ⟨some "b", false⟩, ⟨some "c", false⟩]

/-- An example three-step navigator before any transition. -/
def exState : NavState := ⟨[exMarker, exMarker, exMarker], exPanels, -1, false, false, ""⟩

/-- The example navigator positioned at step 1. -/
def exStateAt1 : NavState := { exState with current := 1 }

/-- No registered interceptors. -/
def exNoI : Interceptors := ⟨[], []⟩

/-- A single before interceptor that always returns exactly false. -/
def exVetoI : Interceptors := ⟨[fun _ => JSRet.exactFalse], []⟩

/-! Lemmas about resolveInterceptors. -/

/-- When every callback returns something other than exactly false, the
loop runs them all and reports true. -/
theorem resolveInterceptors_allow (l : List Interceptor) (p : TargetContainer)
    (h : ∀ j (hj : j < l.length), l.get ⟨j, hj⟩ p = JSRet.allow) :
    resolveInterceptors l p = (true, l.length) := by
  induction l with
  | nil => rfl
  | cons f rest ih =>
    have h0 : f p = JSRet.allow := h 0 (Nat.succ_pos _)
    have ih' := ih fun j hj => h (j + 1) (Nat.succ_lt_succ hj)
    simp [resolveInterceptors, h0, ih']

/-- When the callback at position k returns exactly false and all earlier
ones allow, the loop stops right there: k + 1 callbacks run and the
result is false. -/
theorem resolveInterceptors_veto (l : List Interceptor) (p : TargetContainer)
    (k : Nat) (hk : k < l.length)
    (hv : l.get ⟨k, hk⟩ p = JSRet.exactFalse)
    (ha : ∀ j (hj : j < k), l.get ⟨j, Nat.lt_trans hj hk⟩ p = JSRet.allow) :
    resolveInterceptors l p = (false, k + 1) := by
  induction l generalizing k with
  | nil => exact absurd hk (Nat.not_lt_zero k)
  | cons f rest ih =>
    cases k with
    | zero =>
      have hv' : f p = JSRet.exactFalse := hv
      simp [resolveInterceptors, hv']
    | succ k =>
      have h0 : f p = JSRet.allow := ha 0 (Nat.succ_pos _)
      have ih' := ih k (Nat.lt_of_succ_lt_succ hk) hv
        (fun j hj => ha (j + 1) (Nat.succ_lt_succ hj))
      simp [resolveInterceptors, h0, ih']

/-- C1: when the current index differs from the target and interceptors
are not ignored, a before interceptor returning exactly false aborts the
transition atomically: the interceptors after it are not invoked, the
state (current index, panels, markers, buttons, hash) is returned
unchanged, and no after interceptor runs; and when every before
interceptor returns anything other than exactly false the transition
proceeds. -/
theorem c1_before_veto :
    (∀ (s : NavState) (I : Interceptors) (index : Int) (k : Nat)
      (hk : k < I.beforeChange.length),
      s.current ≠ index →
      I.beforeChange.get ⟨k, hk⟩ ⟨index, attrId s.container index⟩ = JSRet.exactFalse →
      (∀ j (hj : j < k),
        I.beforeChange.get ⟨j, Nat.lt_trans hj hk⟩ ⟨index, attrId s.container index⟩ =
          JSRet.allow) →
      goTo s I index false =
        { state := s, aborted := true, beforeInvoked := k + 1, afterInvoked := 0 }) ∧
    (∀ (s : NavState) (I : Interceptors) (index : Int),
      (∀ j (hj : j < I.beforeChange.length),
        I.beforeChange.get ⟨j, hj⟩ ⟨index, attrId s.container index⟩ = JSRet.allow) →
      (goTo s I index false).aborted = false) := by
  constructor
  · intro s I index k hk hcur hv ha
    have hb : (s.current != index) = true := bne_iff_ne.mpr hcur
    have hr := resolveInterceptors_veto I.beforeChange ⟨index, attrId s.container index⟩ k hk hv ha
    simp [goTo, hb, hr]
  · intro s I index hall
    have hr := resolveInterceptors_allow I.beforeChange ⟨index, attrId s.container index⟩ hall
    by_cases hb : s.current = index
    · simp [goTo, hb]
    · have hb' : (s.current != index) = true := bne_iff_ne.mpr hb
      simp [goTo, hb', hr]

/-- Witness for C1 at a concrete input: a three-step navigator whose only
before interceptor vetoes the transition to index 1. -/
theorem c1_before_veto_witness :
    exState.current ≠ 1 ∧
    goTo exState exVetoI 1 false =
      { state := exState, aborted := true, beforeInvoked := 1, afterInvoked := 0 } :=
  ⟨by decide,
    c1_before_veto.1 exState exVetoI 1 0 (by decide) (by decide) (by decide)
      (fun j hj => absurd hj (Nat.not_lt_zero j))⟩

/-- C7: continueChange is definitionally goTo(target.index, true), and
with interceptors ignored the transition always completes and ends at the
target index, whatever the registered before interceptors return. -/
theorem c7_continueChange :
    ∀ (s : NavState) (I : Interceptors) (tc : TargetContainer),
      continueChange s I tc = goTo s I tc.index true ∧
      (continueChange s I tc).aborted = false ∧
      (continueChange s I tc).state.current = tc.index := by
  intro s I tc
  refine ⟨rfl, ?_, ?_⟩ <;> simp [continueChange, goTo, applyGoTo]

/-- C9: next performs goTo(current + 1) exactly when current is below the
last index and otherwise changes nothing and calls no interceptor, and
previous performs goTo(current - 1) exactly when current is positive and
otherwise changes nothing and calls no interceptor. -/
theorem c9_next_previous :
    ∀ (s : NavState) (I : Interceptors),
      (s.current < (s.navigation.length : Int) - 1 →
        next s I = goTo s I (s.current + 1) false) ∧
      (¬ s.current < (s.navigation.length : Int) - 1 →
        next s I = { state := s, aborted := false, beforeInvoked := 0, afterInvoked := 0 }) ∧
      (0 < s.current → previous s I = goTo s I (s.current - 1) false) ∧
      (¬ 0 < s.current →
        previous s I = { state := s, aborted := false, beforeInvoked := 0, afterInvoked := 0 }) := by
  intro s I
  refine ⟨fun h => ?_, fun h => ?_, fun h => ?_, fun h => ?_⟩ <;>
    simp [next, previous, h]

/-- Witness for C9 at concrete inputs: from step 1 of three, next is the
transition to index 2, and previous at step 1 is the transition to index
0. -/
theorem c9_next_previous_witness :
    (exStateAt1.current < (exStateAt1.navigation.length : Int) - 1 ∧
      next exStateAt1 exNoI = goTo exStateAt1 exNoI (exStateAt1.current + 1) false) ∧
    (0 < exStateAt1.current ∧
      previous exStateAt1 exNoI = goTo exStateAt1 exNoI (exStateAt1.current - 1) false) :=
  ⟨⟨by decide, (c9_next_previous exStateAt1 exNoI).1 (by decide)⟩,
   ⟨by decide, (c9_next_previous exStateAt1 exNoI).2.2.1 (by decide)⟩⟩

/-! Lemmas about the state update performed by a successful goTo. -/

/-- The navigation-refresh loop body in normal form: markers before the
current index become plain visited, the current one active and visited
with aria-selected, and the ones after keep their visited class and are
disabled exactly when they were not visited. -/
theorem renderMarker_eq (c : Int) (j : Nat) (m : Marker) :
    renderMarker c j m =
      if (j : Int) < c then ⟨false, false, true, false⟩
      else if (j : Int) = c then ⟨false, true, true, true⟩
      else ⟨!m.visited, false, m.visited, false⟩ := by
  obtain ⟨d, a, v, ar⟩ := m
  by_cases h1 : (j : Int) < c
  · simp [renderMarker, h1]
  · by_cases h2 : (j : Int) = c
    · simp [renderMarker, h1, h2]
    · have hgt : (j : Int) > c := by omega
      cases v <;> simp [renderMarker, h1, h2, hgt]

/-- The marker produced for position j is active exactly when j is the
current index. -/
theorem renderMarker_active (c : Int) (j : Nat) (m : Marker) :
    ((renderMarker c j m).active = true) ↔ (j : Int) = c := by
  rw [renderMarker_eq]
  split_ifs with h1 h2
  · simp
    omega
  · simp [h2]
  · simp
    omega

/-- Every marker strictly before the current index is rendered visited. -/
theorem renderMarker_visited_lt (c : Int) (j : Nat) (m : Marker) (h : (j : Int) < c) :
    (renderMarker c j m).visited = true := by
  rw [renderMarker_eq, if_pos h]

/-- A marker after the current index that was not visited is rendered
disabled. -/
theorem renderMarker_disabled_gt (c : Int) (j : Nat) (m : Marker)
    (h : (j : Int) > c) (hv : m.visited = false) :
    (renderMarker c j m).disabled = true := by
  rw [renderMarker_eq, if_neg (by omega), if_neg (by omega)]
  simp [hv]

/-- Element lookup through the navigation-refresh loop. -/
theorem renderNavAux_get? (c : Int) (l : List Marker) :
    ∀ (i j : Nat),
      (renderNavAux c i l)[j]? = (l[j]?).map fun m => renderMarker c (i + j) m := by
  induction l with
  | nil => intro i j; simp [renderNavAux]
  | cons m rest ih =>
    intro i j
    cases j with
    | zero => simp [renderNavAux]
    | succ j =>
      have h' := ih (i + 1) j
      have hadd : i + 1 + j = i + (j + 1) := by omega
      rw [hadd] at h'
      simpa [renderNavAux] using h'

/-- Element lookup through the show-current-container loop. -/
theorem showAux_get? (index : Int) (l : List Panel) :
    ∀ (i j : Nat),
      (showAux index i l)[j]? =
        (l[j]?).map fun p =>
          if (i : Int) + (j : Int) = index then { p with visible := true } else p := by
  induction l with
  | nil => intro i j; simp [showAux]
  | cons p rest ih =>
    intro i j
    cases j with
    | zero => simp [showAux]
    | succ j =>
      have h' := ih (i + 1) j
      have hadd : ((i + 1 : Nat) : Int) + (j : Int) = (i : Int) + ((j + 1 : Nat) : Int) := by
        push_cast
        ring
      rw [hadd] at h'
      simpa [showAux] using h'

/-- Hiding the containers does not change their id attributes. -/
theorem attrId_hidePanels (ps : List Panel) (index : Int) :
    attrId (hidePanels ps) index = attrId ps index := by
  unfold attrId hidePanels
  split
  · rw [List.getElem?_map]
    cases ps[index.toNat]? <;> rfl
  · rfl

/-- Showing a container does not change the id attributes. -/
theorem attrId_showAux (ps : List Panel) (c index : Int) (i : Nat) :
    attrId (showAux c i ps) index = attrId ps index := by
  unfold attrId
  split
  · rw [showAux_get?]
    cases ps[index.toNat]? with
    | none => rfl
    | some p =>
      show (if (i : Int) + (index.toNat : Int) = c then { p with visible := true } else p).id =
        p.id
      by_cases hc : (i : Int) + (index.toNat : Int) = c
      · rw [if_pos hc]
      · rw [if_neg hc]
  · rfl

/-- The container list after a goTo state update keeps its ids. -/
theorem attrId_applyGoTo (s : NavState) (i index : Int) :
    attrId (applyGoTo s i).container index = attrId s.container index := by
  show attrId (showAux i 0 (hidePanels s.container)) index = attrId s.container index
  rw [attrId_showAux, attrId_hidePanels]

/-- The navigation-refresh loop preserves the number of markers. -/
theorem renderNavAux_length (c : Int) (l : List Marker) :
    ∀ i : Nat, (renderNavAux c i l).length = l.length := by
  induction l with
  | nil => intro i; rfl
  | cons m rest ih => intro i; simp [renderNavAux, ih]

/-- A successful goTo leaves applyGoTo's state to the caller. -/
theorem goTo_success_state (s : NavState) (I : Interceptors) (index : Int) (ign : Bool)
    (h : (goTo s I index ign).aborted = false) :
    (goTo s I index ign).state = applyGoTo s index := by
  by_cases hc : ((s.current != index) && !ign) = true
  · by_cases hr : (resolveInterceptors I.beforeChange ⟨index, attrId s.container index⟩).1 = true
    · simp [goTo, hc, hr]
    · exfalso
      simp [goTo, hc, hr] at h
  · simp [goTo, hc]

/-- C2: after a successful goTo to a valid index i, getCurrentContainer
returns the id attribute of panel i together with i itself. -/
theorem c2_getCurrentContainer :
    ∀ (s : NavState) (I : Interceptors) (i : Int) (ign : Bool)
      (hlt : i.toNat < s.container.length),
      0 ≤ i →
      (goTo s I i ign).aborted = false →
      getCurrentContainer (goTo s I i ign).state =
        some { index := i, id := (s.container.get ⟨i.toNat, hlt⟩).id } := by
  intro s I i ign hlt h0 hsucc
  rw [goTo_success_state s I i ign hsucc]
  have hcur : (applyGoTo s i).current = i := rfl
  unfold getCurrentContainer
  rw [hcur, if_pos h0, attrId_applyGoTo]
  unfold attrId
  rw [if_pos h0, List.getElem?_eq_getElem hlt]
  rfl

/-- Witness for C2 at a concrete input: after moving the three-step
navigator to index 1, the current container is b at index 1. -/
theorem c2_getCurrentContainer_witness :
    (1 : Int).toNat < exState.container.length ∧ (0 : Int) ≤ 1 ∧
    (goTo exState exNoI 1 false).aborted = false ∧
    getCurrentContainer (goTo exState exNoI 1 false).state =
      some { index := 1, id := (exState.container.get ⟨(1 : Int).toNat, by decide⟩).id } :=
  ⟨by decide, by decide, by decide,
    c2_getCurrentContainer exState exNoI 1 false (by decide) (by decide) (by decide)⟩

/-- C3: after a successful transition to a valid index i, a marker is
active exactly when it sits at index i (so exactly one marker is active),
every marker before i is visited, and every marker after i that was not
visited before is disabled. -/
theorem c3_marker_invariant :
    ∀ (s : NavState) (I : Interceptors) (i : Int) (ign : Bool),
      (goTo s I i ign).aborted = false →
      0 ≤ i → i.toNat < s.navigation.length →
      (goTo s I i ign).state.navigation.length = s.navigation.length ∧
      (∀ (j : Nat) (m : Marker),
        (goTo s I i ign).state.navigation[j]? = some m → ((m.active = true) ↔ (j : Int) = i)) ∧
      (∀ (j : Nat) (m : Marker),
        (goTo s I i ign).state.navigation[j]? = some m → (j : Int) < i → m.visited = true) ∧
      (∀ (j : Nat) (m m' : Marker),
        s.navigation[j]? = some m →
        (goTo s I i ign).state.navigation[j]? = some m' →
        (j : Int) > i → m.visited = false → m'.disabled = true) := by
  intro s I i ign hsucc h0 hlt
  rw [goTo_success_state s I i ign hsucc]
  have hnav : (applyGoTo s i).navigation = renderNavAux i 0 s.navigation := rfl
  rw [hnav]
  refine ⟨renderNavAux_length i s.navigation 0, ?_, ?_, ?_⟩
  · intro j m hm
    rw [renderNavAux_get? i s.navigation 0 j] at hm
    cases hj : s.navigation[j]? with
    | none => rw [hj] at hm; exact absurd hm (by simp)
    | some m0 =>
      rw [hj] at hm
      have hm' : renderMarker i (0 + j) m0 = m := by simpa using hm
      rw [← hm', Nat.zero_add]
      exact renderMarker_active i j m0
  · intro j m hm hj
    rw [renderNavAux_get? i s.navigation 0 j] at hm
    cases hj0 : s.navigation[j]? with
    | none => rw [hj0] at hm; exact absurd hm (by simp)
    | some m0 =>
      rw [hj0] at hm
      have hm' : renderMarker i (0 + j) m0 = m := by simpa using hm
      rw [← hm', Nat.zero_add]
      exact renderMarker_visited_lt i j m0 hj
  · intro j m m' hj0 hm hgt hv
    rw [renderNavAux_get? i s.navigation 0 j, hj0] at hm
    have hm' : renderMarker i (0 + j) m = m' := by simpa using hm
    rw [← hm', Nat.zero_add]
    exact renderMarker_disabled_gt i j m hgt hv

/-- Witness for C3 at a concrete input: transition the three-step
navigator to index 1 and read off the invariant. -/
theorem c3_marker_invariant_witness :
    (goTo exState exNoI 1 false).aborted = false ∧
    ((goTo exState exNoI 1 false).state.navigation.length = exState.navigation.length ∧
      (∀ (j : Nat) (m : Marker),
        (goTo exState exNoI 1 false).state.navigation[j]? = some m →
          ((m.active = true) ↔ (j : Int) = 1)) ∧
      (∀ (j : Nat) (m : Marker),
        (goTo exState exNoI 1 false).state.navigation[j]? = some m →
          (j : Int) < 1 → m.visited = true) ∧
      (∀ (j : Nat) (m m' : Marker),
        exState.navigation[j]? = some m →
        (goTo exState exNoI 1 false).state.navigation[j]? = some m' →
        (j : Int) > 1 → m.visited = false → m'.disabled = true)) :=
  ⟨by decide,
    c3_marker_invariant exState exNoI 1 false (by decide) (by decide) (by decide)⟩

/-- Two after interceptors: the first returns exactly false, the second
allows. -/
def exAfterVetoI : Interceptors :=
  ⟨[], [fun _ => JSRet.exactFalse, fun _ => JSRet.allow]⟩

/-- On a content change that is not aborted, the number of after
callbacks invoked is whatever the afterChange resolution loop reports. -/
theorem goTo_afterInvoked_of_changed (s : NavState) (I : Interceptors) (index : Int)
    (ign : Bool) (hcur : s.current ≠ index) (h : (goTo s I index ign).aborted = false) :
    (goTo s I index ign).afterInvoked =
      (resolveInterceptors I.afterChange ⟨index, attrId s.container index⟩).2 := by
  have hb : (s.current != index) = true := bne_iff_ne.mpr hcur
  by_cases hign : ign = true
  · simp [goTo, hb, hign]
  · by_cases hr : (resolveInterceptors I.beforeChange ⟨index, attrId s.container index⟩).1 = true
    · simp [goTo, hb, hign, hr]
    · exfalso
      simp [goTo, hb, hign, hr] at h

/-- C4 counterexample: a successful transition on which the first of two
registered after interceptors returns exactly false invokes only one
after callback, so the second after interceptor does not run even though
the claim says all of them always do. -/
theorem c4_counterexample :
    (goTo exState exAfterVetoI 1 false).aborted = false ∧
    exAfterVetoI.afterChange.length = 2 ∧
    (goTo exState exAfterVetoI 1 false).afterInvoked = 1 := by
  refine ⟨rfl, rfl, rfl⟩

/-- C4 (amended): on a successful transition with a content change, the
after interceptors run in registration order with the target step and
their return values cannot undo the already-performed update; but the
loop stops at the first after interceptor that returns exactly false, so
the ones registered after it are not invoked.  When none returns exactly
false they all run. -/
theorem c4_after_interceptors :
    (∀ (s : NavState) (I : Interceptors) (index : Int) (ign : Bool),
      s.current ≠ index →
      (goTo s I index ign).aborted = false →
      (∀ j (hj : j < I.afterChange.length),
        I.afterChange.get ⟨j, hj⟩ ⟨index, attrId s.container index⟩ = JSRet.allow) →
      (goTo s I index ign).afterInvoked = I.afterChange.length) ∧
    (∀ (s : NavState) (I : Interceptors) (index : Int) (ign : Bool) (k : Nat)
      (hk : k < I.afterChange.length),
      s.current ≠ index →
      (goTo s I index ign).aborted = false →
      I.afterChange.get ⟨k, hk⟩ ⟨index, attrId s.container index⟩ = JSRet.exactFalse →
      (∀ j (hj : j < k),
        I.afterChange.get ⟨j, Nat.lt_trans hj hk⟩ ⟨index, attrId s.container index⟩ =
          JSRet.allow) →
      (goTo s I index ign).afterInvoked = k + 1 ∧
        (goTo s I index ign).state = applyGoTo s index) := by
  constructor
  · intro s I index ign hcur hs hall
    rw [goTo_afterInvoked_of_changed s I index ign hcur hs,
      resolveInterceptors_allow I.afterChange ⟨index, attrId s.container index⟩ hall]
  · intro s I index ign k hk hcur hs hv ha
    refine ⟨?_, goTo_success_state s I index ign hs⟩
    rw [goTo_afterInvoked_of_changed s I index ign hcur hs,
      resolveInterceptors_veto I.afterChange ⟨index, attrId s.container index⟩ k hk hv ha]

/-- Witness for the amended C4 at a concrete input: the transition of the
example navigator to index 1 with the vetoing after-interceptor pair
still completes its state update, and exactly one after callback ran. -/
theorem c4_after_interceptors_witness :
    exState.current ≠ 1 ∧ (goTo exState exAfterVetoI 1 false).aborted = false ∧
    ((goTo exState exAfterVetoI 1 false).afterInvoked = 0 + 1 ∧
      (goTo exState exAfterVetoI 1 false).state = applyGoTo exState 1) :=
  ⟨by decide, by decide,
    c4_after_interceptors.2 exState exAfterVetoI 1 false 0 (by decide) (by decide) (by decide)
      (by decide) (fun j hj => absurd hj (Nat.not_lt_zero j))⟩

/-! Lemmas about the goToID container scan. -/

/-- The scan leaves the state alone when no id matches. -/
theorem goToIDScan_nomatch (I : Interceptors) (t : String) :
    ∀ (l : List (Option String)) (i : Nat) (s : NavState),
      (∀ pid ∈ l, pid ≠ some t) → goToIDScan I t i s l = s := by
  intro l
  induction l with
  | nil => intro i s _; rfl
  | cons pid rest ih =>
    intro i s h
    have hpid : pid ≠ some t := h pid (List.mem_cons_self pid rest)
    have hrest : ∀ q ∈ rest, q ≠ some t := fun q hq => h q (List.mem_cons_of_mem pid hq)
    simp [goToIDScan, hpid, ih (i + 1) s hrest]

/-- When exactly one id matches, the scan performs the goTo at that
position and nothing else. -/
theorem goToIDScan_unique (I : Interceptors) (t : String) :
    ∀ (l1 l2 : List (Option String)) (i : Nat) (s : NavState),
      (∀ pid ∈ l1, pid ≠ some t) → (∀ pid ∈ l2, pid ≠ some t) →
      goToIDScan I t i s (l1 ++ some t :: l2) =
        (goTo s I ((i + l1.length : Nat) : Int) false).state := by
  intro l1
  induction l1 with
  | nil =>
    intro l2 i s _ h2
    simp only [List.nil_append, goToIDScan, if_pos rfl]
    rw [goToIDScan_nomatch I t l2 (i + 1) _ h2]
    simp
  | cons pid rest ih =>
    intro l2 i s h1 h2
    have hpid : pid ≠ some t := h1 pid (List.mem_cons_self pid rest)
    have hrest : ∀ q ∈ rest, q ≠ some t := fun q hq => h1 q (List.mem_cons_of_mem pid hq)
    have hlen : i + 1 + rest.length = i + (pid :: rest).length := by simp; omega
    simp only [List.cons_append, goToIDScan, if_neg hpid]
    have h' := ih l2 (i + 1) s hrest h2
    rw [hlen] at h'
    exact h'

/-- C5: goToID on the literal next and prev delegates to next and
previous and returns true; on any other identifier it strips the first
number sign and scans the containers, returning false both when no id
matches (state untouched) and when exactly one id matches, in which case
the goTo at the matching position has been performed but the true
returned inside the scan callback is lost. -/
theorem c5_goToID :
    (∀ (s : NavState) (I : Interceptors),
      goToID s I "next" = { ret := true, state := (next s I).state }) ∧
    (∀ (s : NavState) (I : Interceptors),
      goToID s I "prev" = { ret := true, state := (previous s I).state }) ∧
    (∀ (s : NavState) (I : Interceptors) (cid : String),
      cid ≠ "next" → cid ≠ "prev" → (goToID s I cid).ret = false) ∧
    (∀ (s : NavState) (I : Interceptors) (cid : String),
      cid ≠ "next" → cid ≠ "prev" →
      (∀ pid ∈ s.container.map Panel.id, pid ≠ some (jsReplaceHash cid)) →
      goToID s I cid = { ret := false, state := s }) ∧
    (∀ (s : NavState) (I : Interceptors) (cid : String) (l1 l2 : List (Option String)),
      cid ≠ "next" → cid ≠ "prev" →
      s.container.map Panel.id = l1 ++ some (jsReplaceHash cid) :: l2 →
      (∀ pid ∈ l1, pid ≠ some (jsReplaceHash cid)) →
      (∀ pid ∈ l2, pid ≠ some (jsReplaceHash cid)) →
      goToID s I cid = { ret := false, state := (goTo s I (l1.length : Int) false).state }) := by
  refine ⟨fun s I => rfl, fun s I => by simp [goToID], ?_, ?_, ?_⟩
  · intro s I cid hn hp
    simp [goToID, hn, hp]
  · intro s I cid hn hp hno
    simp only [goToID, if_neg hn, if_neg hp]
    rw [goToIDScan_nomatch I (jsReplaceHash cid) (s.container.map Panel.id) 0 s hno]
  · intro s I cid l1 l2 hn hp hsplit h1 h2
    simp only [goToID, if_neg hn, if_neg hp]
    rw [hsplit, goToIDScan_unique I (jsReplaceHash cid) l1 l2 0 s h1 h2, Nat.zero_add]

/-- Witness for C5 at a concrete input: scanning for id b in the
three-step navigator performs the goTo to index 1 yet still returns
false. -/
theorem c5_goToID_witness :
    exState.container.map Panel.id =
      [some "a"] ++ some (jsReplaceHash "b") :: [some "c"] ∧
    goToID exState exNoI "b" =
      { ret := false, state := (goTo exState exNoI (([some "a"] : List (Option String)).length : Int) false).state } :=
  ⟨by decide,
    c5_goToID.2.2.2.2 exState exNoI "b" [some "a"] [some "c"] (by decide) (by decide)
      (by decide) (by decide) (by decide)⟩

/-! Idempotence of the rendered state. -/

/-- Refreshing a marker a second time with the same current index changes
nothing. -/
theorem renderMarker_idem (c : Int) (j : Nat) (m : Marker) :
    renderMarker c j (renderMarker c j m) = renderMarker c j m := by
  rw [renderMarker_eq c j m]
  by_cases h1 : (j : Int) < c
  · rw [if_pos h1, renderMarker_eq, if_pos h1]
  · by_cases h2 : (j : Int) = c
    · rw [if_neg h1, if_pos h2, renderMarker_eq, if_neg h1, if_pos h2]
    · rw [if_neg h1, if_neg h2, renderMarker_eq, if_neg h1, if_neg h2]

/-- Refreshing the whole navigation a second time with the same current
index changes nothing. -/
theorem renderNavAux_idem (c : Int) (l : List Marker) :
    ∀ i : Nat, renderNavAux c i (renderNavAux c i l) = renderNavAux c i l := by
  induction l with
  | nil => intro i; rfl
  | cons m rest ih =>
    intro i
    simp [renderNavAux, renderMarker_idem, ih (i + 1)]

/-- Hiding after showing gives the same containers as just hiding. -/
theorem hidePanels_showAux (c : Int) (ps : List Panel) :
    ∀ i : Nat, hidePanels (showAux c i ps) = hidePanels ps := by
  induction ps with
  | nil => intro i; rfl
  | cons p rest ih =>
    intro i
    show ({ (if (i : Int) = c then { p with visible := true } else p) with visible := false } :
        Panel) :: hidePanels (showAux c (i + 1) rest) =
      { p with visible := false } :: hidePanels rest
    rw [ih (i + 1)]
    by_cases h : (i : Int) = c
    · rw [if_pos h]
    · rw [if_neg h]

/-- Hiding the containers twice is the same as hiding them once. -/
theorem hidePanels_idem (ps : List Panel) : hidePanels (hidePanels ps) = hidePanels ps := by
  unfold hidePanels
  rw [List.map_map]
  rfl

/-- Applying the goTo state update twice with the same index gives the
state of applying it once. -/
theorem applyGoTo_idem (s : NavState) (index : Int) :
    applyGoTo (applyGoTo s index) index = applyGoTo s index := by
  refine NavState.ext ?_ ?_ ?_ ?_ ?_ ?_
  · show renderNavAux index 0 (renderNavAux index 0 s.navigation) =
      renderNavAux index 0 s.navigation
    exact renderNavAux_idem index s.navigation 0
  · show showAux index 0 (hidePanels (showAux index 0 (hidePanels s.container))) =
      showAux index 0 (hidePanels s.container)
    rw [hidePanels_showAux, hidePanels_idem]
  · rfl
  · rfl
  · show decide (index + 1 = ((renderNavAux index 0 s.navigation).length : Int)) =
      decide (index + 1 = (s.navigation.length : Int))
    rw [renderNavAux_length]
  · show (if index > 0 then
        setHashValue (jsUndefStr (attrId
          (showAux index 0 (hidePanels (showAux index 0 (hidePanels s.container)))) index))
      else if (applyGoTo s index).hash.length > 0 then "" else (applyGoTo s index).hash) =
      (applyGoTo s index).hash
    have hhash : (applyGoTo s index).hash =
        if index > 0 then
          setHashValue (jsUndefStr (attrId (showAux index 0 (hidePanels s.container)) index))
        else if s.hash.length > 0 then "" else s.hash := rfl
    by_cases h0 : index > 0
    · rw [if_pos h0, hhash, if_pos h0, hidePanels_showAux, hidePanels_idem]
    · rw [if_neg h0, hhash, if_neg h0]
      by_cases hs : s.hash.length > 0
      · rw [if_pos hs]
        rfl
      · rw [if_neg hs, if_neg hs]

/-- C8: calling goTo again with the index the navigator is already at
(any state a completed goTo produced has current equal to its index)
invokes no before and no after interceptor, performs the re-render, and
leaves the state exactly as it was. -/
theorem c8_goTo_idempotent :
    ∀ (s : NavState) (I J : Interceptors) (index : Int) (ign ign' : Bool),
      (goTo s I index ign).aborted = false →
      (goTo s I index ign).state.current = index ∧
      goTo (goTo s I index ign).state J index ign' =
        { state := (goTo s I index ign).state, aborted := false,
          beforeInvoked := 0, afterInvoked := 0 } := by
  intro s I J index ign ign' h
  rw [goTo_success_state s I index ign h]
  refine ⟨rfl, ?_⟩
  have hb : ((applyGoTo s index).current != index) = false := by
    simp [show (applyGoTo s index).current = index from rfl]
  simp [goTo, hb, applyGoTo_idem]

/-- Witness for C8 at a concrete input: after moving the example
navigator to index 1, a second goTo 1 returns the state unchanged with
zero interceptor invocations, even with interceptors registered. -/
theorem c8_goTo_idempotent_witness :
    (goTo exState exNoI 1 false).aborted = false ∧
    ((goTo exState exNoI 1 false).state.current = 1 ∧
      goTo (goTo exState exNoI 1 false).state exVetoI 1 false =
        { state := (goTo exState exNoI 1 false).state, aborted := false,
          beforeInvoked := 0, afterInvoked := 0 }) :=
  ⟨by decide, c8_goTo_idempotent exState exNoI exVetoI 1 false false (by decide)⟩

/-- A document with no markers and no panels: malformed markup (zero
steps). -/
def exEmptyDoc : Doc := ⟨[], [], false, false, "", none⟩

/-- The navigator's state before any initialization. -/
def exEmptyState : NavState := ⟨[], [], -1, false, false, ""⟩

/-- C6 counterexample: on zero-step markup init leaves the navigator in
its inert state, yet a direct goTo(0) call still mutates that state (the
current index becomes 0 and the previous button is disabled), so it is
not true that every public operation leaves the navigator state
unchanged. -/
theorem c6_counterexample :
    init exEmptyState exNoI exEmptyDoc = exEmptyState ∧
    (goTo (init exEmptyState exNoI exEmptyDoc) exNoI 0 false).state ≠
      init exEmptyState exNoI exEmptyDoc := by
  exact ⟨rfl, by decide⟩

/-- C6 (amended): on malformed markup (marker/panel count mismatch or
zero steps) init performs nothing beyond re-capturing the elements,
and in the zero-step uninitialized state getCurrentContainer returns
null and next, previous, goToID and fillNavigation are safe no-ops; but
goTo (and with it continueChange) checks neither bounds nor
initialization and still mutates the state, as the counterexample
shows. -/
theorem c6_inert :
    ∀ (s : NavState) (I : Interceptors) (doc : Doc),
      (doc.markers.length ≠ doc.panels.length ∨ doc.panels.length = 0) →
      init s I doc = initAssign s doc ∧
      (doc.markers = [] → doc.panels = [] → s.current = -1 →
        getCurrentContainer (init s I doc) = none ∧
        next (init s I doc) I =
          { state := init s I doc, aborted := false, beforeInvoked := 0, afterInvoked := 0 } ∧
        previous (init s I doc) I =
          { state := init s I doc, aborted := false, beforeInvoked := 0, afterInvoked := 0 } ∧
        goToID (init s I doc) I "next" = { ret := true, state := init s I doc } ∧
        goToID (init s I doc) I "prev" = { ret := true, state := init s I doc } ∧
        (∀ cid : String, cid ≠ "next" → cid ≠ "prev" →
          goToID (init s I doc) I cid = { ret := false, state := init s I doc }) ∧
        (∀ env : LayoutEnv, fillNavigation (init s I doc).navigation.length env = none)) := by
  intro s I doc hmal
  have hguard : ¬((initAssign s doc).navigation.length = (initAssign s doc).container.length ∧
      (initAssign s doc).container.length > 0) := by
    have h1 : (initAssign s doc).navigation = doc.markers := rfl
    have h2 : (initAssign s doc).container = doc.panels := rfl
    rw [h1, h2]
    rcases hmal with h | h
    · rintro ⟨heq, _⟩
      exact h heq
    · rintro ⟨_, hpos⟩
      omega
  have hinit : init s I doc = initAssign s doc := by
    unfold init
    rw [if_neg hguard]
  refine ⟨hinit, ?_⟩
  intro hm hp hcur
  have hnav : (init s I doc).navigation = [] := by rw [hinit]; exact hm
  have hcon : (init s I doc).container = [] := by rw [hinit]; exact hp
  have hcurS : (init s I doc).current = -1 := by rw [hinit]; exact hcur
  have hnext : next (init s I doc) I =
      { state := init s I doc, aborted := false, beforeInvoked := 0, afterInvoked := 0 } := by
    unfold next
    rw [if_neg]
    rw [hnav, hcurS]
    decide
  have hprev : previous (init s I doc) I =
      { state := init s I doc, aborted := false, beforeInvoked := 0, afterInvoked := 0 } := by
    unfold previous
    rw [if_neg]
    rw [hcurS]
    decide
  refine ⟨?_, hnext, hprev, ?_, ?_, ?_, ?_⟩
  · unfold getCurrentContainer
    rw [hcurS]
    rfl
  · show ({ ret := true, state := (next (init s I doc) I).state } : GoToIDResult) = _
    rw [hnext]
  · show ({ ret := true, state := (previous (init s I doc) I).state } : GoToIDResult) = _
    rw [hprev]
  · intro cid hn hp'
    simp only [goToID, if_neg hn, if_neg hp']
    rw [hcon]
    rfl
  · intro env
    rw [hnav]
    rfl

/-- Witness for the amended C6 at a concrete input: zero-step markup
leaves the navigator inert and getCurrentContainer returns null. -/
theorem c6_inert_witness :
    (exEmptyDoc.markers.length ≠ exEmptyDoc.panels.length ∨ exEmptyDoc.panels.length = 0) ∧
    init exEmptyState exNoI exEmptyDoc = initAssign exEmptyState exEmptyDoc ∧
    getCurrentContainer (init exEmptyState exNoI exEmptyDoc) = none ∧
    next (init exEmptyState exNoI exEmptyDoc) exNoI =
      { state := init exEmptyState exNoI exEmptyDoc, aborted := false,
        beforeInvoked := 0, afterInvoked := 0 } :=
  ⟨Or.inr (by decide),
   (c6_inert exEmptyState exNoI exEmptyDoc (Or.inr (by decide))).1,
   ((c6_inert exEmptyState exNoI exEmptyDoc (Or.inr (by decide))).2 (by decide) (by decide)
     (by decide)).1,
   ((c6_inert exEmptyState exNoI exEmptyDoc (Or.inr (by decide))).2 (by decide) (by decide)
     (by decide)).2.1⟩

/-! Lemmas about the fillNavigation padding distribution. -/

/-- One step of the padding loop in closed form, for a nonnegative
remainder: the head marker takes one extra left pixel when any remainder
is left and one extra right pixel when at least two are, and the tail
continues with the remainder reduced by what the head consumed. -/
theorem fillLoop_succ_of_nonneg (p : Int) (n : Nat) (diff : Int) (h : 0 ≤ diff) :
    fillLoop p diff (n + 1) =
      (p + (if 0 < diff then 1 else 0), p + (if 1 < diff then 1 else 0)) ::
        fillLoop p (diff - min diff 2) n := by
  show ((if diff > 0 then p + 1 else p,
        if (if diff > 0 then diff - 1 else diff) > 0 then p + 1 else p) ::
      fillLoop p
        (if (if diff > 0 then diff - 1 else diff) > 0
          then (if diff > 0 then diff - 1 else diff) - 1
          else (if diff > 0 then diff - 1 else diff)) n) = _
  congr 1
  · congr 1 <;> (split_ifs <;> omega)
  · congr 1
    split_ifs <;> omega

/-- The padding loop always produces one pair per marker. -/
theorem fillLoop_length (p : Int) :
    ∀ (n : Nat) (diff : Int), (fillLoop p diff n).length = n := by
  intro n
  induction n with
  | zero => intro diff; rfl
  | succ n ih => intro diff; simp [fillLoop, ih]

/-- Each marker's paddings in closed form: marker j takes one extra left
pixel when fewer than 2 j remainder pixels were consumed before it, and
one extra right pixel when fewer than 2 j + 1 were — the remainder drains
one pixel at a time in index order, left before right. -/
theorem fillLoop_getElem (p : Int) :
    ∀ (n : Nat) (diff : Int), 0 ≤ diff → ∀ j : Nat, j < n →
      (fillLoop p diff n)[j]? =
        some (p + (if 2 * (j : Int) < diff then 1 else 0),
              p + (if 2 * (j : Int) + 1 < diff then 1 else 0)) := by
  intro n
  induction n with
  | zero => intro diff _ j hj; exact absurd hj (Nat.not_lt_zero j)
  | succ n ih =>
    intro diff h j hj
    rw [fillLoop_succ_of_nonneg p n diff h]
    cases j with
    | zero =>
      norm_num
    | succ j =>
      rw [List.getElem?_cons_succ, ih (diff - min diff 2) (by omega) j (Nat.lt_of_succ_lt_succ hj)]
      have e1 : 2 * (j : Int) < diff - min diff 2 ↔ 2 * ((j + 1 : Nat) : Int) < diff := by
        push_cast
        omega
      have e2 : 2 * (j : Int) + 1 < diff - min diff 2 ↔
          2 * ((j + 1 : Nat) : Int) + 1 < diff := by
        push_cast
        omega
      rw [if_congr e1 rfl rfl, if_congr e2 rfl rfl]

/-- The total padding assigned by the loop: each marker contributes twice
the base padding, and the remainder contributes one per pixel until it is
exhausted (at most two per marker). -/
theorem fillLoop_sum (p : Int) :
    ∀ (n : Nat) (diff : Int), 0 ≤ diff →
      ((fillLoop p diff n).map fun q => q.1 + q.2).sum =
        2 * (n : Int) * p + min diff (2 * (n : Int)) := by
  intro n
  induction n with
  | zero =>
    intro diff h
    show (0 : Int) = 2 * ((0 : Nat) : Int) * p + min diff (2 * ((0 : Nat) : Int))
    push_cast
    omega
  | succ n ih =>
    intro diff h
    rw [fillLoop_succ_of_nonneg p n diff h, List.map_cons, List.sum_cons,
      ih (diff - min diff 2) (by omega)]
    have key : ((if (0 : Int) < diff then (1 : Int) else 0) +
          (if (1 : Int) < diff then (1 : Int) else 0)) +
          min (diff - min diff 2) (2 * (n : Int)) = min diff (2 * ((n : Int) + 1)) := by
      have hn0 : (0 : Int) ≤ (n : Int) := Int.ofNat_nonneg n
      split_ifs <;> omega
    push_cast
    linear_combination key

/-- C10: for at least one step and a nonnegative remaining width, the
base padding is the floor of width over twice the step count, each marker
receives the base padding plus remainder pixels handed out one at a time
in index order (left padding before right padding), and the assigned
paddings sum exactly to the remaining width. -/
theorem c10_fillNavigation :
    ∀ (n : Nat) (width : Int), 1 ≤ n → 0 ≤ width →
      fillNavPadding n width = width / (2 * (n : Int)) ∧
      fillNavDiff n width = width % (2 * (n : Int)) ∧
      (fillNavigationPaddings n width).length = n ∧
      (∀ j : Nat, j < n →
        (fillNavigationPaddings n width)[j]? =
          some (width / (2 * (n : Int)) +
                  (if 2 * (j : Int) < width % (2 * (n : Int)) then 1 else 0),
                width / (2 * (n : Int)) +
                  (if 2 * (j : Int) + 1 < width % (2 * (n : Int)) then 1 else 0))) ∧
      ((fillNavigationPaddings n width).map fun q => q.1 + q.2).sum = width := by
  intro n width hn hw
  have hn1 : (1 : Int) ≤ (n : Int) := by exact_mod_cast hn
  have h2n : (0 : Int) < 2 * (n : Int) := by omega
  have hpad : fillNavPadding n width = width / (2 * (n : Int)) := by
    unfold fillNavPadding
    exact Int.tdiv_eq_ediv hw (by omega)
  have hdiff : fillNavDiff n width = width % (2 * (n : Int)) := by
    unfold fillNavDiff
    rw [hpad, Int.emod_def]
    ring
  have hmod0 : 0 ≤ width % (2 * (n : Int)) := Int.emod_nonneg width (by omega)
  have hmodlt : width % (2 * (n : Int)) < 2 * (n : Int) := Int.emod_lt_of_pos width h2n
  refine ⟨hpad, hdiff, ?_, ?_, ?_⟩
  · unfold fillNavigationPaddings
    exact fillLoop_length _ n _
  · intro j hj
    unfold fillNavigationPaddings
    rw [hpad, hdiff]
    exact fillLoop_getElem _ n _ hmod0 j hj
  · unfold fillNavigationPaddings
    rw [hpad, hdiff, fillLoop_sum _ n _ hmod0, min_eq_left (le_of_lt hmodlt)]
    have := Int.ediv_add_emod width (2 * (n : Int))
    linarith

/-- Witness for C10 at a concrete input: three steps and seventeen pixels
of remaining width give base padding 2, remainder 5 spread over the first
markers, and a total of exactly 17. -/
theorem c10_fillNavigation_witness :
    1 ≤ 3 ∧ (0 : Int) ≤ 17 ∧
    (fillNavPadding 3 17 = 17 / (2 * ((3 : Nat) : Int)) ∧
      fillNavDiff 3 17 = 17 % (2 * ((3 : Nat) : Int)) ∧
      (fillNavigationPaddings 3 17).length = 3 ∧
      (∀ j : Nat, j < 3 →
        (fillNavigationPaddings 3 17)[j]? =
          some ((17 : Int) / (2 * ((3 : Nat) : Int)) +
                  (if 2 * (j : Int) < (17 : Int) % (2 * ((3 : Nat) : Int)) then 1 else 0),
                (17 : Int) / (2 * ((3 : Nat) : Int)) +
                  (if 2 * (j : Int) + 1 < (17 : Int) % (2 * ((3 : Nat) : Int)) then 1 else 0))) ∧
      ((fillNavigationPaddings 3 17).map fun q => q.1 + q.2).sum = 17) :=
  ⟨by decide, by decide, c10_fillNavigation 3 17 (by decide) (by decide)⟩

end PlentyNav
